import Mathlib

/-!
Verification of the table-extraction pipeline of EcoLogical-Extractor
(`src/table_extraction.py`), as a shallow embedding in Lean 4.

Modelling conventions:
* A table cell is `Option String` (`none` models Python `None`).
* Float arithmetic of the scorer is modelled exactly over `ℚ`; Python's
  `round(x, 2)` (banker's rounding) is `round2`.
* The external PDF libraries (pdfplumber, camelot) and the file system are
  modelled at their interface: a `Doc` records, per document, what each
  library call would return (`Except` for raised exceptions).
* Timestamps (`datetime.now().isoformat()`) are omitted from records: they
  are real-time values with no bearing on the verified properties.
-/

/-! ## Cells, tables and Python string primitives -/

abbrev Cell := Option String

abbrev Table := List (List Cell)

/-- Python `str.strip()` over the ASCII whitespace model: drop leading and
trailing whitespace characters. -/
def pyStrip (s : String) : String :=
  ⟨((s.data.dropWhile Char.isWhitespace).reverse.dropWhile Char.isWhitespace).reverse⟩

/-- Truthiness of `s.strip()` in Python: some character is not whitespace. -/
def stripNonEmpty (s : String) : Bool :=
  s.data.any (fun c => !c.isWhitespace)

/-- Python `str.lower()` on one character (ASCII model). -/
def pyLowerChar (c : Char) : Char :=
  if 'A' ≤ c ∧ c ≤ 'Z' then Char.ofNat (c.toNat + 32) else c

/-- Python `str.lower()` (ASCII model). -/
def pyLower (s : String) : String :=
  ⟨s.data.map pyLowerChar⟩

/-- `cell is not None and str(cell).strip()`: the cell counts as non-empty. -/
def cellNonEmpty (c : Cell) : Bool :=
  match c with
  | none => false
  | some s => stripNonEmpty s

/-- A `\w` character of the regexes (ASCII model): alphanumeric or `_`. -/
def wordChar (c : Char) : Bool :=
  c.isAlphanum || c = '_'

/-- A character matching `[^\w\s.,%-]`. -/
def specialChar (c : Char) : Bool :=
  !wordChar c && !c.isWhitespace && !(c = '.') && !(c = ',') && !(c = '%') && !(c = '-')

/-- `re.search(r"[^\w\s.,%-]", s)` succeeds. -/
def hasSpecialChar (s : String) : Bool :=
  s.data.any specialChar

/-- A character of the class `[\d.,%-]`. -/
def numericChar (c : Char) : Bool :=
  c.isDigit || c = '.' || c = ',' || c = '%' || c = '-'

/-- `re.match(r"^[\d.,%-]+$", s.strip())` succeeds. -/
def cellIsNumeric (s : String) : Bool :=
  !(pyStrip s).data.isEmpty && (pyStrip s).data.all numericChar

/-! ## Constants (`table_extraction.py`, module level) -/

def TQS_THRESHOLD : ℚ := 1/2

def QUALITY_HIGH : ℚ := 3/5

def FIRST_PAGE_PENALTY : ℚ := 2/5

def HEADER_KEYWORDS : List String :=
  ["table", "id", "name", "date", "year", "value", "category", "type",
   "species", "count", "total", "number", "description", "location", "site"]

/-! ## Python `round(x, 2)` over ℚ (round half to even) -/

/-- Round a rational to the nearest integer, ties to even, as Python `round`. -/
def roundHalfEven (x : ℚ) : ℤ :=
  if x - ⌊x⌋ < 1/2 then ⌊x⌋
  else if 1/2 < x - ⌊x⌋ then ⌊x⌋ + 1
  else if ⌊x⌋ % 2 = 0 then ⌊x⌋ else ⌊x⌋ + 1

/-- Python `round(x, 2)`. -/
def round2 (x : ℚ) : ℚ :=
  (roundHalfEven (100 * x) : ℚ) / 100

/-! ## Quality metrics (`compute_content_metrics` … `compute_header_analysis`) -/

structure ContentMetrics where
  total_cells : ℕ
  non_empty : ℕ
  special_chars : ℕ
  numeric : ℕ
deriving DecidableEq, Repr

/-- `compute_content_metrics`: cell totals across the grid.  The special /
numeric counters only tick inside the non-empty branch, as in the source. -/
def compute_content_metrics (t : Table) : ContentMetrics :=
  { total_cells := (t.map List.length).sum
    non_empty := (t.map (fun row => row.countP cellNonEmpty)).sum
    special_chars :=
      (t.map (fun row => row.countP (fun c =>
        cellNonEmpty c && hasSpecialChar (c.getD "")))).sum
    numeric :=
      (t.map (fun row => row.countP (fun c =>
        cellNonEmpty c && cellIsNumeric (c.getD "")))).sum }

/-- `statistics.pvariance` on a list of naturals, over ℚ. -/
def pvariance (xs : List ℕ) : ℚ :=
  let n : ℚ := xs.length
  let mean : ℚ := ((xs.map (fun x => (x : ℚ))).sum) / n
  ((xs.map (fun x => ((x : ℚ) - mean) ^ 2)).sum) / n

/-- `compute_structure_metrics`: column-count consistency. -/
def compute_structure_metrics (t : Table) : ℚ :=
  let col_lengths := t.map List.length
  let col_variance := if 1 < col_lengths.length then pvariance col_lengths else 0
  1 / (1 + col_variance)

/-- `compute_empty_cell_clustering`: fraction of rows in which the count of
cells equal to `""` exceeds `len(row) // 2` (`row.count("") > len(row) // 2`). -/
def compute_empty_cell_clustering (t : Table) : ℚ :=
  ((t.countP (fun row => row.length / 2 < row.count (some ""))) : ℚ) / (t.length : ℚ)

/-- `compute_header_analysis`: first-row keyword matches, saturating at 3. -/
def compute_header_analysis (t : Table) : ℚ :=
  match t with
  | [] => 0
  | r0 :: _ =>
    if r0.isEmpty then 0
    else
      let first_row := (r0.filterMap id).map pyLower
      let header_matches := (HEADER_KEYWORDS.filter (fun k => first_row.contains k)).length
      min 1 ((header_matches : ℚ) / 3)

/-! ## `compute_table_quality` -/

/-- The unclamped, unrounded score combination of `compute_table_quality`. -/
def rawScore (t : Table) (page : ℕ) : ℚ :=
  let m := compute_content_metrics t
  2/5 * ((m.non_empty : ℚ) / (m.total_cells : ℚ))
    + 3/10 * compute_structure_metrics t
    + 3/10 * compute_header_analysis t
    - 1/5 * compute_empty_cell_clustering t
    - (if page = 1 then FIRST_PAGE_PENALTY else 0)

/-- The body of the `try` block of `compute_table_quality`.  In this pure
embedding no branch throws (ℚ division is total), so the result is always
`.ok`; a hypothetical raised exception would be an `.error`. -/
def tqsBody (t : Table) (page : ℕ) : Except String ℚ :=
  if (compute_content_metrics t).total_cells = 0 then .ok 0
  else .ok (max 0 (min 1 (round2 (rawScore t page))))

/-- The `except` handler of `compute_table_quality`: any exception yields 0. -/
def tqsWithBody : Except String ℚ → ℚ
  | .ok q => q
  | .error _ => 0

/-- `compute_table_quality`. -/
def compute_table_quality (t : Table) (page : ℕ) : ℚ :=
  if t.length < 2 then 0
  else tqsWithBody (tqsBody t page)

/-! ## `normalize_table_data` -/

/-- `max(len(row) for row in t)` (0 for an empty grid, where the Python
generator would raise; the source returns `[]` before reaching it). -/
def maxRowLen (t : Table) : ℕ :=
  (t.map List.length).foldl max 0

/-- `normalize_table_data`: coerce `None` cells to `""`, then right-pad every
row with `""` to the maximum row length. -/
def normalize_table_data (t : Table) : List (List String) :=
  if t.isEmpty then []
  else
    (t.map (fun row => row.map (fun c => c.getD ""))).map
      (fun row => row ++ List.replicate (maxRowLen t - row.length) "")

/-! ## Document interface model

The pdfplumber and camelot libraries and the file system are modelled at
their call boundary.  A `Doc` records what each library call on one document
would return; `.error` models a raised exception. -/

/-- The two kinds of per-document exceptions distinguished by the source's
`except` clauses. -/
inductive PdfError where
  | fileNotFound
  | parseError
deriving DecidableEq, Repr

instance {ε α : Type} [DecidableEq ε] [DecidableEq α] : DecidableEq (Except ε α) :=
  fun a b =>
    match a, b with
    | .ok x, .ok y =>
      match decEq x y with
      | .isTrue h => .isTrue (by rw [h])
      | .isFalse h => .isFalse (fun c => h (Except.ok.inj c))
    | .error x, .error y =>
      match decEq x y with
      | .isTrue h => .isTrue (by rw [h])
      | .isFalse h => .isFalse (fun c => h (Except.error.inj c))
    | .ok _, .error _ => .isFalse (fun c => Except.noConfusion c)
    | .error _, .ok _ => .isFalse (fun c => Except.noConfusion c)

/-- One pdfplumber page: `page.extract_text()` and `page.extract_tables()`. -/
structure Page where
  text : Option String
  tables : List Table
deriving DecidableEq, Repr

/-- One camelot table: its DataFrame grid (`table.df`) and `table.page`. -/
structure CamelotTable where
  df : Table
  page : ℕ
deriving DecidableEq, Repr

/-- A document, given by the outcome of each external call made on it:
`pdfplumber.open(...)` with its pages, and `camelot.read_pdf` in its two
flavors.  The source only ever performs the `lattice` call; the `stream`
outcome is carried so that the fallback policy can be stated. -/
structure Doc where
  pages : Except PdfError (List Page)
  camelotLattice : Except PdfError (List CamelotTable)
  camelotStream : Except PdfError (List CamelotTable)

/-- An extracted-table record as appended by the extraction backends
(`page`, `table`, `method`, `quality_score`; the timestamp is omitted). -/
structure Candidate where
  page : ℕ
  table : Table
  method : String
  quality_score : ℚ
deriving DecidableEq, Repr

/-- `pandas.DataFrame.empty` for a grid. -/
def dfEmpty (t : Table) : Bool :=
  t.isEmpty || t.all List.isEmpty

/-- `is_image_based_pdf`: no non-whitespace text on the first two pages;
any exception also yields `True`. -/
def is_image_based_pdf (d : Doc) : Bool :=
  match d.pages with
  | .error _ => true
  | .ok pages =>
    !((pages.take 2).any (fun pg =>
      match pg.text with
      | none => false
      | some s => stripNonEmpty s))

/-- The page loop of `extract_tables_with_pdfplumber` (pages are 1-based). -/
def plumberCandidates (pages : List Page) : List Candidate :=
  (pages.enum.map (fun p =>
    p.2.tables.filterMap (fun t =>
      if TQS_THRESHOLD ≤ compute_table_quality t (p.1 + 1) then
        some { page := p.1 + 1, table := t, method := "pdfplumber",
               quality_score := compute_table_quality t (p.1 + 1) }
      else none))).flatten

/-- `extract_tables_with_pdfplumber`: only `FileNotFoundError` is caught
(yielding the empty list); any other exception propagates. -/
def extract_tables_with_pdfplumber (d : Doc) : Except PdfError (List Candidate) :=
  match d.pages with
  | .error .fileNotFound => .ok []
  | .error e => .error e
  | .ok pages => .ok (plumberCandidates pages)

/-- The table loop of `extract_tables_with_camelot` over the lattice result. -/
def camelotCandidates (tabs : List CamelotTable) : List Candidate :=
  tabs.filterMap (fun ct =>
    if dfEmpty ct.df then none
    else if TQS_THRESHOLD ≤ compute_table_quality ct.df ct.page then
      some { page := ct.page, table := ct.df, method := "camelot",
             quality_score := round2 (compute_table_quality ct.df ct.page) }
    else none)

/-- `extract_tables_with_camelot`: a single `camelot.read_pdf(..., flavor=
"lattice")` call; every exception is caught (yielding the empty list).  The
`stream` flavor named in the source's docstring is never attempted. -/
def extract_tables_with_camelot (d : Doc) : Except PdfError (List Candidate) :=
  match d.camelotLattice with
  | .error _ => .ok []
  | .ok tabs => .ok (if 0 < tabs.length then camelotCandidates tabs else [])

/-- The extraction backends, for invocation traces. -/
inductive BackendCall where
  | plumber
  | camelot
deriving DecidableEq, Repr

/-- `extract_tables`, instrumented with the list of backend invocations. -/
def extract_tablesT (d : Doc) : List BackendCall × Except PdfError (List Candidate) :=
  if is_image_based_pdf d then ([], .ok [])
  else
    match extract_tables_with_pdfplumber d with
    | .error e => ([.plumber], .error e)
    | .ok tables =>
      if tables.isEmpty then ([.plumber, .camelot], extract_tables_with_camelot d)
      else ([.plumber], .ok tables)

/-- `extract_tables` (the trace erased). -/
def extract_tables (d : Doc) : Except PdfError (List Candidate) :=
  (extract_tablesT d).2

/-! ## Manifest and the batch driver -/

/-- A per-document manifest entry (`processed_date` omitted).  `filename` is
the document stem. -/
structure Status where
  filename : String
  is_scanned : Bool
  has_tables : Bool
  num_tables : ℕ
  extraction_method : Option String
  quality_scores : List ℚ
  saved_files : Option (String × List String)
  success : Bool
deriving DecidableEq, Repr

/-- A manifest value: either a full status record, or the reduced error
record written by `main`'s `except` handler. -/
inductive ManifestEntry where
  | status (s : Status)
  | failure (filename : String) (error : String)
deriving DecidableEq, Repr

/-- The manifest: an insertion-ordered mapping, as a Python dict. -/
abbrev Manifest := List (String × ManifestEntry)

/-- Python dict assignment `m[k] = v`: replace in place or append. -/
def manifestSet : Manifest → String → ManifestEntry → Manifest
  | [], k, v => [(k, v)]
  | (k', v') :: rest, k, v =>
    if k' = k then (k, v) :: rest else (k', v') :: manifestSet rest k v

/-- Python `k in m`. -/
def manifestHasKey (m : Manifest) (k : String) : Bool :=
  m.any (fun p => p.1 = k)

/-- The status record written for a scanned document in `process_pdf`. -/
def scannedStatus (name : String) : Status :=
  { filename := name, is_scanned := true, has_tables := false, num_tables := 0,
    extraction_method := none, quality_scores := [], saved_files := none,
    success := false }

/-- `process_pdf`, instrumented with the backend-invocation trace.  Note that
only the scanned branch writes into the manifest; the success branch merely
returns its status record. -/
def process_pdfT (name : String) (d : Doc) (manifest : Manifest) :
    List BackendCall × Except PdfError (Manifest × Status) :=
  if is_image_based_pdf d then
    ([], .ok (manifestSet manifest name (.status (scannedStatus name)),
              scannedStatus name))
  else
    match extract_tablesT d with
    | (calls, .error e) => (calls, .error e)
    | (calls, .ok tables) =>
      let hq := tables.filter (fun t => QUALITY_HIGH ≤ t.quality_score)
      (calls, .ok (manifest,
        { filename := name
          is_scanned := false
          has_tables := !hq.isEmpty
          num_tables := hq.length
          extraction_method := hq.head?.map Candidate.method
          quality_scores := hq.map Candidate.quality_score
          saved_files :=
            if hq.isEmpty then none
            else some (name ++ ".json",
              (List.range hq.length).map
                (fun i => name ++ "_table_" ++ toString (i + 1) ++ ".csv"))
          success := true }))

/-- `process_pdf` (the trace erased). -/
def process_pdf (name : String) (d : Doc) (manifest : Manifest) :
    Except PdfError (Manifest × Status) :=
  (process_pdfT name d manifest).2

/-- The counters printed by `main`. -/
structure Stats where
  processed : ℕ
  skipped : ℕ
  failed : ℕ
  no_tables : ℕ
deriving DecidableEq, Repr

/-- Message text of a propagated exception, for the manifest error record. -/
def PdfError.msg : PdfError → String
  | .fileNotFound => "file not found"
  | .parseError => "parse error"

/-- The per-document loop of `main`: skip when the name is already in the
manifest and `--force` is absent; otherwise run `process_pdf`, catching any
exception into a failure record. -/
def runBatch (force : Bool) (docs : List (String × Doc)) (manifest0 : Manifest) :
    Manifest × Stats :=
  docs.foldl (fun acc nd =>
    if manifestHasKey acc.1 nd.1 && !force then
      (acc.1, { acc.2 with skipped := acc.2.skipped + 1 })
    else
      match process_pdf nd.1 nd.2 acc.1 with
      | .ok (m', status) =>
        if status.has_tables then (m', { acc.2 with processed := acc.2.processed + 1 })
        else (m', { acc.2 with no_tables := acc.2.no_tables + 1 })
      | .error e =>
        (manifestSet acc.1 nd.1 (.failure nd.1 e.msg),
         { acc.2 with failed := acc.2.failed + 1 }))
    (manifest0, ⟨0, 0, 0, 0⟩)

/-! ## Manifest loading -/

/-- The manifest file as seen by `load_manifest`: absent (`FileNotFoundError`
on `open`), or present with the outcome of `json.load` on its content. -/
inductive ManifestFileState where
  | absent
  | present (parsed : Except String Manifest)

/-- `load_manifest`: a missing file yields the empty mapping; any other
outcome of `json.load` (value or raised error) passes through unhandled. -/
def load_manifest : ManifestFileState → Except String Manifest
  | .absent => .ok []
  | .present parsed => parsed

/-! ## Specification-side definition (for claim C5)

The scorer's own clustering penalty above is translated from the source; the
following definition follows the specification's words instead, for
comparison. -/

/-- Modelled from the spec: a cell is "empty" if it is absent or trims to the
empty string after removing whitespace. -/
def specCellEmpty : Cell → Bool
  | none => true
  | some s => !stripNonEmpty s

/-- Modelled from the spec: the clustering penalty as the fraction of rows in
which more than half the cells are empty in the sense of `specCellEmpty`. -/
def clusteringPenaltySpec (t : Table) : ℚ :=
  ((t.countP (fun row =>
    (row.length : ℚ) / 2 < (row.countP specCellEmpty : ℚ))) : ℚ) / (t.length : ℚ)

/-! ## Concrete instances used by witnesses and counterexamples -/

/-- A rectangular grid with three header keywords; scores 1 on page 2 and
3/5 on page 1. -/
def kwGrid : Table :=
  [[some "name", some "date", some "species"], [some "1", some "2", some "3"]]

/-- A grid whose raw score (3/10 off page 1) lies below the first-page
penalty, so the page-1 score clamps at 0. -/
def lowGrid : Table :=
  [[some "", some "x"], [some "", some ""]]

/-- A grid whose second row is entirely whitespace cells: empty per the
spec's trimming definition, not empty per the source's `== ""` test. -/
def wsGrid : Table :=
  [[some " ", some " "], [some "a", some "b"]]

/-- A text-bearing document with one floor- and high-passing table. -/
def tableDoc : Doc :=
  { pages := .ok [{ text := some "field survey", tables := [kwGrid] }]
    camelotLattice := .ok []
    camelotStream := .ok [] }

/-- A text-bearing document whose tables are only found by camelot's
`stream` flavor; `lattice` finds nothing. -/
def streamDoc : Doc :=
  { pages := .ok [{ text := some "field survey", tables := [] }]
    camelotLattice := .ok []
    camelotStream := .ok [{ df := kwGrid, page := 2 }] }

/-- A document on which every pdfplumber call raises a parse error. -/
def parseDoc : Doc :=
  { pages := .error .parseError, camelotLattice := .ok [], camelotStream := .ok [] }

/-- A document on which both libraries raise `FileNotFoundError`. -/
def fnfDoc : Doc :=
  { pages := .error .fileNotFound, camelotLattice := .error .fileNotFound,
    camelotStream := .ok [] }

/-- A scanned document: one page with no extractable text. -/
def scannedDoc : Doc :=
  { pages := .ok [{ text := none, tables := [] }], camelotLattice := .ok [],
    camelotStream := .ok [] }

/-! ## Helper lemmas -/

theorem tqsWithBody_ok (q : ℚ) : tqsWithBody (.ok q) = q := rfl

theorem roundHalfEven_intCast (n : ℤ) : roundHalfEven (n : ℚ) = n := by
  unfold roundHalfEven
  rw [Int.floor_intCast]
  norm_num

theorem round2_zero : round2 0 = 0 := by
  unfold round2
  rw [show (100:ℚ) * 0 = ((0:ℤ) : ℚ) by norm_num, roundHalfEven_intCast]
  norm_num

theorem round2_one : round2 1 = 1 := by
  unfold round2
  rw [show (100:ℚ) * 1 = ((100:ℤ) : ℚ) by norm_num, roundHalfEven_intCast]
  norm_num

theorem round2_intDiv (k : ℤ) : round2 ((k : ℚ) / 100) = (k : ℚ) / 100 := by
  unfold round2
  rw [show (100:ℚ) * ((k : ℚ) / 100) = (k : ℚ) by ring, roundHalfEven_intCast]

theorem round2_round2 (x : ℚ) : round2 (round2 x) = round2 x := by
  rw [show round2 x = ((roundHalfEven (100 * x) : ℤ) : ℚ) / 100 from rfl, round2_intDiv]

theorem roundHalfEven_sub_forty (x : ℚ) :
    roundHalfEven (x - 40) = roundHalfEven x - 40 := by
  unfold roundHalfEven
  have h1 : ⌊x - (40:ℚ)⌋ = ⌊x⌋ - 40 := by
    exact_mod_cast Int.floor_sub_int x (40 : ℤ)
  rw [h1]
  have h2 : x - 40 - ((⌊x⌋ - 40 : ℤ) : ℚ) = x - (⌊x⌋ : ℚ) := by push_cast; ring
  rw [h2]
  have h3 : (⌊x⌋ - 40) % 2 = ⌊x⌋ % 2 := by omega
  rw [h3]
  split_ifs <;> omega

theorem round2_sub_twoFifths (x : ℚ) : round2 (x - 2/5) = round2 x - 2/5 := by
  unfold round2
  rw [show (100:ℚ) * (x - 2/5) = 100 * x - 40 by ring, roundHalfEven_sub_forty]
  push_cast
  ring

theorem rawScore_page1 (t : Table) : rawScore t 1 = rawScore t 2 - 2/5 := by
  simp [rawScore, FIRST_PAGE_PENALTY]

theorem tqs_clamped (t : Table) (p : ℕ) (hlen : ¬ t.length < 2)
    (htc : ¬ (compute_content_metrics t).total_cells = 0) :
    compute_table_quality t p = max 0 (min 1 (round2 (rawScore t p))) := by
  unfold compute_table_quality tqsBody
  rw [if_neg hlen, if_neg htc, tqsWithBody_ok]

theorem half_lt_iff (c n : ℕ) : n / 2 < c ↔ (n : ℚ) / 2 < (c : ℚ) := by
  rw [div_lt_iff₀ (by norm_num : (0:ℚ) < 2),
      Nat.div_lt_iff_lt_mul (by norm_num : 0 < 2)]
  exact_mod_cast Iff.rfl

theorem init_le_foldl_max (l : List ℕ) (a : ℕ) : a ≤ l.foldl max a := by
  induction l generalizing a with
  | nil => exact le_refl a
  | cons b l ih => exact le_trans (Nat.le_max_left a b) (ih (max a b))

theorem mem_le_foldl_max (l : List ℕ) (a x : ℕ) (hx : x ∈ l) : x ≤ l.foldl max a := by
  induction l generalizing a with
  | nil => cases hx
  | cons b l ih =>
    rcases List.mem_cons.mp hx with h | h
    · subst h
      exact le_trans (Nat.le_max_right a x) (init_le_foldl_max l (max a x))
    · exact ih (max a b) h

theorem rowLen_le_maxRowLen (t : Table) (row : List Cell) (h : row ∈ t) :
    row.length ≤ maxRowLen t :=
  mem_le_foldl_max (t.map List.length) 0 row.length (List.mem_map_of_mem List.length h)

theorem normalize_table_data_eq (t : Table) :
    normalize_table_data t =
      t.map (fun row =>
        row.map (fun c => c.getD "") ++ List.replicate (maxRowLen t - row.length) "") := by
  unfold normalize_table_data
  split
  · rename_i h
    rw [List.isEmpty_iff.mp h]
    rfl
  · rw [List.map_map]
    apply List.map_congr_left
    intro row _
    simp [Function.comp]

theorem normalize_rect (t : Table) :
    ∀ r ∈ normalize_table_data t, r.length = maxRowLen t := by
  intro r hr
  rw [normalize_table_data_eq] at hr
  obtain ⟨row, hrow, rfl⟩ := List.mem_map.mp hr
  have hle : row.length ≤ maxRowLen t := rowLen_le_maxRowLen t row hrow
  simp [List.length_append, List.length_replicate, List.length_map]
  omega

theorem tqs_kwGrid_p1 : compute_table_quality kwGrid 1 = 3/5 := by
  norm_num +decide [compute_table_quality, tqsBody, tqsWithBody, rawScore,
    compute_content_metrics, compute_structure_metrics, compute_header_analysis,
    compute_empty_cell_clustering, pvariance, kwGrid, HEADER_KEYWORDS,
    FIRST_PAGE_PENALTY, round2, roundHalfEven]

theorem tqs_kwGrid_p2 : compute_table_quality kwGrid 2 = 1 := by
  norm_num +decide [compute_table_quality, tqsBody, tqsWithBody, rawScore,
    compute_content_metrics, compute_structure_metrics, compute_header_analysis,
    compute_empty_cell_clustering, pvariance, kwGrid, HEADER_KEYWORDS,
    FIRST_PAGE_PENALTY, round2, roundHalfEven]

/-! ## Claims -/

/-- C1.  The claim states that running the batch driver twice without
`--force` leaves the manifest unchanged and skips every document processed
in the first run.  The code violates this: `process_pdf` returns the status
record for a successfully processed text-bearing document but neither it nor
`main` ever writes that record into the manifest, so the manifest stays
empty after a run over one successful document and the second run processes
it again (`skipped = 0`, `processed = 1` again) instead of skipping it. -/
theorem manifest_never_records_success :
    (runBatch false [("doc1", tableDoc)] []).1 = [] ∧
    (runBatch false [("doc1", tableDoc)]
        (runBatch false [("doc1", tableDoc)] []).1).2 =
      { processed := 1, skipped := 0, failed := 0, no_tables := 0 } := by
  constructor <;>
    norm_num +decide [runBatch, process_pdf, process_pdfT, extract_tablesT,
      extract_tables_with_pdfplumber, extract_tables_with_camelot,
      plumberCandidates, camelotCandidates, is_image_based_pdf, tableDoc,
      manifestHasKey, stripNonEmpty, tqs_kwGrid_p1, TQS_THRESHOLD, QUALITY_HIGH]

/-- C2.  The claim states that the camelot fallback attempts two structural
modes, lattice first and stream second, keeping the candidates of the first
mode that yields any non-empty grid.  The code only ever performs the
lattice call (its own docstring notwithstanding): on a document whose
lattice result is empty but whose stream result holds a non-empty,
floor-passing grid, extraction still returns zero candidates. -/
theorem camelot_stream_never_attempted :
    extract_tables streamDoc = .ok [] ∧
    dfEmpty kwGrid = false ∧
    TQS_THRESHOLD ≤ compute_table_quality kwGrid 2 := by
  refine ⟨?_, by decide, by rw [tqs_kwGrid_p2]; norm_num [TQS_THRESHOLD]⟩
  simp [extract_tables, extract_tablesT, extract_tables_with_pdfplumber,
    extract_tables_with_camelot, plumberCandidates, is_image_based_pdf,
    streamDoc, stripNonEmpty]

/-- C3 counterexample.  The claim states that a file-not-found or parse
error inside either backend is caught at that backend's boundary and yields
an empty candidate list.  On a document whose pdfplumber call raises a parse
error, `extract_tables_with_pdfplumber` propagates the error instead of
returning the empty list: its `except` clause only catches
`FileNotFoundError`. -/
theorem pdfplumber_parse_error_propagates :
    extract_tables_with_pdfplumber parseDoc = .error .parseError ∧
    extract_tables_with_pdfplumber parseDoc ≠ .ok [] :=
  ⟨rfl, fun h => by simp [extract_tables_with_pdfplumber, parseDoc] at h⟩

/-- C3 amended.  A file-not-found error in either backend and any error in
the camelot backend are caught at the backend boundary and yield an empty
candidate list; a parse error in the pdfplumber backend, however, propagates
out of the backend's extract function (it is only caught later by the batch
driver's per-document handler). -/
theorem backend_error_policy (d : Doc) :
    (d.pages = .error .fileNotFound → extract_tables_with_pdfplumber d = .ok []) ∧
    (∀ e, d.camelotLattice = .error e → extract_tables_with_camelot d = .ok []) ∧
    (d.pages = .error .parseError →
      extract_tables_with_pdfplumber d = .error .parseError) := by
  refine ⟨fun h => ?_, fun e h => ?_, fun h => ?_⟩ <;>
    simp [extract_tables_with_pdfplumber, extract_tables_with_camelot, h]

/-- C3 witness: the amended policy at concrete documents. -/
theorem backend_error_policy_witness :
    extract_tables_with_pdfplumber fnfDoc = .ok [] ∧
    extract_tables_with_camelot fnfDoc = .ok [] ∧
    extract_tables_with_pdfplumber parseDoc = .error .parseError :=
  ⟨(backend_error_policy fnfDoc).1 rfl,
   (backend_error_policy fnfDoc).2.1 .fileNotFound rfl,
   (backend_error_policy parseDoc).2.2 rfl⟩

/-- C4 counterexample.  The claim states that two candidates identical but
for the page number (1 vs 2) always score exactly 0.4 apart.  For a grid
whose page-2 score is 3/10, the page-1 raw score is negative and clamps to
0, so the difference is 3/10, not 2/5. -/
theorem first_page_diff_clamped_cex :
    compute_table_quality lowGrid 2 = 3/10 ∧
    compute_table_quality lowGrid 1 = 0 ∧
    compute_table_quality lowGrid 2 - compute_table_quality lowGrid 1 ≠ 2/5 := by
  refine ⟨?_, ?_, ?_⟩ <;>
    norm_num +decide [compute_table_quality, tqsBody, tqsWithBody, rawScore,
      compute_content_metrics, compute_structure_metrics, compute_header_analysis,
      compute_empty_cell_clustering, pvariance, lowGrid, HEADER_KEYWORDS,
      FIRST_PAGE_PENALTY, round2, roundHalfEven]

/-- C4 amended.  For any grid with at least two rows and at least one cell,
whenever no clamping occurs — the rounded unpenalized (page-2) score lies in
[2/5, 1] — the page-2 and page-1 scores differ by exactly 2/5 = 0.4. -/
theorem first_page_diff_unclamped (t : Table) (hlen : 2 ≤ t.length)
    (htc : (compute_content_metrics t).total_cells ≠ 0)
    (h1 : 2/5 ≤ round2 (rawScore t 2)) (h2 : round2 (rawScore t 2) ≤ 1) :
    compute_table_quality t 2 - compute_table_quality t 1 = 2/5 := by
  have hl : ¬ t.length < 2 := by omega
  rw [tqs_clamped t 2 hl htc, tqs_clamped t 1 hl htc, rawScore_page1,
      round2_sub_twoFifths]
  rw [min_eq_right h2, max_eq_right (le_trans (by norm_num) h1)]
  rw [min_eq_right (by linarith), max_eq_right (by linarith)]
  ring

/-- C4 witness: the unclamped difference at a concrete grid. -/
theorem first_page_diff_unclamped_witness :
    compute_table_quality kwGrid 2 - compute_table_quality kwGrid 1 = 2/5 :=
  first_page_diff_unclamped kwGrid (by decide) (by decide)
    (by norm_num +decide [rawScore, compute_content_metrics,
      compute_structure_metrics, compute_header_analysis,
      compute_empty_cell_clustering, pvariance, kwGrid, HEADER_KEYWORDS,
      FIRST_PAGE_PENALTY, round2, roundHalfEven])
    (by norm_num +decide [rawScore, compute_content_metrics,
      compute_structure_metrics, compute_header_analysis,
      compute_empty_cell_clustering, pvariance, kwGrid, HEADER_KEYWORDS,
      FIRST_PAGE_PENALTY, round2, roundHalfEven])

/-- C5 counterexample.  The claim states that the clustering penalty counts
a cell as empty when it is absent or trims to the empty string.  On a grid
whose second-row cells are single spaces, the source's `row.count("")` test
finds no empty cells (penalty 0), while the spec's trimming definition makes
the row majority-empty (penalty 1/2). -/
theorem cluster_penalty_whitespace_cex :
    compute_empty_cell_clustering wsGrid = 0 ∧
    clusteringPenaltySpec wsGrid = 1/2 ∧
    compute_empty_cell_clustering wsGrid ≠ clusteringPenaltySpec wsGrid := by
  refine ⟨?_, ?_, ?_⟩ <;>
    norm_num +decide [compute_empty_cell_clustering, clusteringPenaltySpec,
      wsGrid, specCellEmpty, stripNonEmpty]

/-- C5 amended.  The clustering penalty equals the fraction of rows in which
more than half the cells are exactly the empty string `""`; cells that are
null or whitespace-only do not count as empty for this penalty. -/
theorem cluster_penalty_exact_empty_only (t : Table) :
    compute_empty_cell_clustering t =
      ((t.countP (fun row =>
        (row.length : ℚ) / 2 < (row.count (some "") : ℚ))) : ℚ) / (t.length : ℚ) := by
  unfold compute_empty_cell_clustering
  have h : t.countP (fun row => decide (row.length / 2 < row.count (some ""))) =
      t.countP (fun row => decide ((row.length : ℚ) / 2 < (row.count (some "") : ℚ))) :=
    List.countP_congr (fun row _ => by
      simpa using half_lt_iff (row.count (some "")) row.length)
  rw [h]

/-- C6.  For a document classified as scanned, `process_pdf` writes a
manifest entry with `num_tables = 0` and a null extraction method, and no
extraction backend is invoked (the backend-call trace is empty). -/
theorem scanned_doc_manifest_invariant (name : String) (d : Doc) (m : Manifest)
    (h : is_image_based_pdf d = true) :
    process_pdfT name d m
      = ([], .ok (manifestSet m name (.status (scannedStatus name)),
                  scannedStatus name)) ∧
    (scannedStatus name).num_tables = 0 ∧
    (scannedStatus name).extraction_method = none := by
  refine ⟨?_, rfl, rfl⟩
  simp [process_pdfT, h]

/-- C6 witness: the invariant at a concrete scanned document. -/
theorem scanned_doc_manifest_invariant_witness :
    process_pdfT "doc2" scannedDoc []
      = ([], .ok (manifestSet [] "doc2" (.status (scannedStatus "doc2")),
                  scannedStatus "doc2")) ∧
    (scannedStatus "doc2").num_tables = 0 ∧
    (scannedStatus "doc2").extraction_method = none :=
  scanned_doc_manifest_invariant "doc2" scannedDoc [] (by decide)

/-- C7.  `normalize_table_data` returns the empty grid on empty input, and
otherwise coerces every null cell to `""` and right-pads every row with `""`
to the maximum input row length, so every output row has that length. -/
theorem normalize_table_data_spec (t : Table) :
    (t = [] → normalize_table_data t = []) ∧
    normalize_table_data t =
      t.map (fun row =>
        row.map (fun c => c.getD "") ++ List.replicate (maxRowLen t - row.length) "") ∧
    ∀ r ∈ normalize_table_data t, r.length = maxRowLen t :=
  ⟨fun h => by rw [h]; rfl, normalize_table_data_eq t, normalize_rect t⟩

/-- C7 witness: normalization of a concrete ragged grid with a null cell. -/
theorem normalize_table_data_spec_witness :
    normalize_table_data [[some "a"], [none, some "b"]] = [["a", ""], ["", "b"]] ∧
    ∀ r ∈ normalize_table_data [[some "a"], [none, some "b"]],
      r.length = maxRowLen [[some "a"], [none, some "b"]] :=
  ⟨by rw [(normalize_table_data_spec [[some "a"], [none, some "b"]]).2.1]; rfl,
   (normalize_table_data_spec [[some "a"], [none, some "b"]]).2.2⟩

/-- C8.  For every grid and page, the quality score lies in [0, 1] and is a
fixed point of rounding to 2 decimal places; and the `except` handler maps
any exception during the computation to a score of exactly 0. -/
theorem tqs_bounds_round_exception (t : Table) (p : ℕ) :
    (0 ≤ compute_table_quality t p ∧ compute_table_quality t p ≤ 1 ∧
      round2 (compute_table_quality t p) = compute_table_quality t p) ∧
    (∀ e : String, tqsWithBody (.error e) = 0) := by
  refine ⟨?_, fun e => rfl⟩
  by_cases hlen : t.length < 2
  · unfold compute_table_quality
    rw [if_pos hlen]
    exact ⟨le_refl 0, by norm_num, round2_zero⟩
  · by_cases htc : (compute_content_metrics t).total_cells = 0
    · unfold compute_table_quality tqsBody
      rw [if_neg hlen, if_pos htc, tqsWithBody_ok]
      exact ⟨le_refl 0, by norm_num, round2_zero⟩
    · rw [tqs_clamped t p hlen htc]
      refine ⟨le_max_left 0 _, max_le (by norm_num) (min_le_left _ _), ?_⟩
      rcases le_total (round2 (rawScore t p)) 0 with h | h
      · rw [min_eq_right (le_trans h (by norm_num)), max_eq_left h, round2_zero]
      · rcases le_total 1 (round2 (rawScore t p)) with h1 | h1
        · rw [min_eq_left h1, max_eq_right (by norm_num : (0:ℚ) ≤ 1), round2_one]
        · rw [min_eq_right h1, max_eq_right h, round2_round2]

/-- C9.  The manifest entry written for a scanned document has its success
flag set to false, although no error occurred while processing it. -/
theorem scanned_doc_success_false (name : String) (d : Doc) (m : Manifest)
    (h : is_image_based_pdf d = true) :
    ∃ st : Status,
      process_pdfT name d m = ([], .ok (manifestSet m name (.status st), st)) ∧
      st.is_scanned = true ∧ st.success = false := by
  exact ⟨scannedStatus name, by simp [process_pdfT, h], rfl, rfl⟩

/-- C9 witness: the success flag at a concrete scanned document. -/
theorem scanned_doc_success_false_witness :
    ∃ st : Status,
      process_pdfT "doc3" scannedDoc [] =
        ([], .ok (manifestSet [] "doc3" (.status st), st)) ∧
      st.is_scanned = true ∧ st.success = false :=
  scanned_doc_success_false "doc3" scannedDoc [] (by decide)

/-- C10 counterexample.  The claim states that `load_manifest` returns an
empty mapping only when the manifest file is absent.  A present file whose
content parses to the empty JSON object also yields the empty mapping. -/
theorem load_manifest_empty_when_present_cex :
    load_manifest (.present (.ok [])) = .ok [] ∧
    ManifestFileState.present (.ok []) ≠ ManifestFileState.absent :=
  ⟨rfl, fun h => ManifestFileState.noConfusion h⟩

/-- C10 amended.  `load_manifest` returns the empty mapping when the file is
absent; when the file is present it returns the result of `json.load`
unhandled, so a parse error on invalid JSON propagates to the caller and a
file parsing to the empty object yields an empty mapping as well. -/
theorem load_manifest_behavior (fs : ManifestFileState) :
    (fs = .absent → load_manifest fs = .ok []) ∧
    (∀ e, fs = .present (.error e) → load_manifest fs = .error e) ∧
    (∀ m, fs = .present (.ok m) → load_manifest fs = .ok m) := by
  refine ⟨fun h => ?_, fun e h => ?_, fun m h => ?_⟩ <;> rw [h] <;> rfl

/-- C10 witness: the load behavior at concrete file states. -/
theorem load_manifest_behavior_witness :
    load_manifest .absent = .ok [] ∧
    load_manifest (.present (.error "invalid json")) = .error "invalid json" :=
  ⟨(load_manifest_behavior .absent).1 rfl,
   (load_manifest_behavior (.present (.error "invalid json"))).2.1 "invalid json" rfl⟩
